import Mathlib

/-
  Verification of the geofeed row-verification engine of mm-geofeed-verifier.

  The development shallowly embeds the row-processing core of the package
  verify (ProcessGeofeed and verifyCorrection in verify/verify.go, together
  with the invalidity taxonomy of verify/errors.go).  External collaborators
  are modelled as oracle functions supplied as parameters:
  - the CIDR parse of the Go standard library (netip) is a function
    String to Except String String, whose ok value is the looked-up address;
  - the city database is a function from the address to a CityRecord
    (country iso code, ordered subdivision iso codes, English city name,
    postal code), or an error; the four decode steps of the source share one
    error shape, so they are collapsed into one record-valued lookup;
  - the optional ISP database is a function from the address to an IspRecord
    or an error.
  File reading, BOM stripping, UTF-8 validation and CSV tokenisation are the
  external boundary; processing is modelled on the list of CSV rows they
  deliver.  Go string helpers are embedded over the character lists of Lean
  strings: trimSpace models strings.TrimSpace (ASCII whitespace), equalFold
  models strings.EqualFold (ASCII folding), strJoin models strings.Join,
  strContainsChar models strings.Contains with a one-character pattern.
-/

namespace Geofeed

/-- Character class used by trimSpace; models the ASCII part of unicode.IsSpace. -/
def isSpaceChar (c : Char) : Bool :=
  c = ' ' || c = '\t' || c = '\n' || c = '\r' || c = '\x0b' || c = '\x0c'

/-- Models strings.TrimSpace restricted to ASCII whitespace. -/
def trimSpace (s : String) : String :=
  ⟨((s.data.dropWhile isSpaceChar).reverse.dropWhile isSpaceChar).reverse⟩

/-- Models strings.EqualFold restricted to ASCII case folding. -/
def equalFold (s t : String) : Bool :=
  s.data.map Char.toLower == t.data.map Char.toLower

/-- Models strings.Join. -/
def strJoin (sep : String) : List String → String
  | [] => ""
  | [a] => a
  | a :: b :: rest => a ++ sep ++ strJoin sep (b :: rest)

/-- Models strings.Contains with a one-character needle, as used by the source
for "/", ":" and "-". -/
def strContainsChar (s : String) (c : Char) : Bool :=
  s.data.contains c

/-- Substring containment, used to state the claims about diff text. -/
def containsAux (pat : List Char) : List Char → Bool
  | [] => pat.isEmpty
  | c :: rest => pat.isPrefixOf (c :: rest) || containsAux pat rest

/-- Substring containment over strings (models strings.Contains in claims). -/
def containsSubstr (s pat : String) : Bool := containsAux pat.data s.data

/-- RowInvalidity from verify/errors.go: the closed set of row invalidity kinds. -/
inductive RowInvalidity
  | FewerFieldsThanExpected
  | EmptyNetwork
  | UnableToParseNetwork
  | UnableToFindCityRecord
  | UnableToFindISPRecord
  | InvalidRegionCode
deriving DecidableEq

/-- GeofeedError: the file-level sentinel errors of verify/errors.go. -/
inductive GeofeedError
  | ErrNotUTF8
  | ErrInvalidGeofeed
  | ErrEmptyGeofeed
deriving DecidableEq

/-- Options from verify/verify.go. -/
structure Options where
  laxMode : Bool
  hideFilePathsInErrorMessages : Bool
  emptyOK : Bool
deriving DecidableEq

/-- CheckResult from verify/verify.go; the Go map from RowInvalidity to string
is modelled as an association list with insert-if-absent updates. -/
structure CheckResult where
  total : Nat
  differences : Nat
  invalid : Nat
  sampleInvalidRows : List (RowInvalidity × String)
deriving DecidableEq

/-- NewCheckResult from verify/verify.go. -/
def NewCheckResult : CheckResult :=
  { total := 0, differences := 0, invalid := 0, sampleInvalidRows := [] }

/-- verificationResult from verify/verify.go.  A valid result carries
invalidityType none, modelling the out-of-range sentinel RowInvalidity(-1)
of the source. -/
structure VerificationResult where
  valid : Bool
  invalidityType : Option RowInvalidity
  invalidityReason : String
deriving DecidableEq

/-- City-record snapshot decoded from the reference database: country iso
code, subdivision iso codes ordered least to most specific, English city
name, postal code. -/
structure CityRecord where
  countryIsoCode : String
  subdivisions : List String
  cityNameEn : String
  postalCode : String
deriving DecidableEq

/-- ISP-record snapshot decoded from the optional ISP database. -/
structure IspRecord where
  autonomousSystemNumber : Nat
  autonomousSystemOrganization : String
  isp : String
deriving DecidableEq

/-- The city database oracle, keyed by the address of the parsed network. -/
abbrev CityDB := String → Except String CityRecord

/-- The ISP database oracle, keyed by the address of the parsed network. -/
abbrev IspDB := String → Except String IspRecord

/-- The CIDR parse oracle; ok carries the address used as the lookup key. -/
abbrev CidrParse := String → Except String String

/-- ASN histogram (the Go map from uint to int), as an association list. -/
abbrev AsnCounts := List (Nat × Nat)

/-- Models asnCounts incrementation of a Go map entry. -/
def bumpAsn (m : AsnCounts) (n : Nat) : AsnCounts :=
  if m.any (fun p => p.fst = n) then
    m.map (fun p => if p.fst = n then (p.fst, p.snd + 1) else p)
  else
    m ++ [(n, 1)]

/-- Reads the count of an AS number from the histogram, zero when absent. -/
def asnCount (m : AsnCounts) (n : Nat) : Nat :=
  match m.find? (fun p => p.fst = n) with
  | some p => p.snd
  | none => 0

/-- Models the Go map insert guarded by the comma-ok existence check used for
SampleInvalidRows: insert only when the key is absent. -/
def insertIfAbsent (m : List (RowInvalidity × String)) (k : RowInvalidity) (v : String) :
    List (RowInvalidity × String) :=
  if m.any (fun p => p.fst = k) then m else m ++ [(k, v)]

/-- Reads the sample message stored for an invalidity kind. -/
def lookupSample (m : List (RowInvalidity × String)) (k : RowInvalidity) : Option String :=
  match m.find? (fun p => p.fst = k) with
  | some p => some p.snd
  | none => none

/-- Prefix-length inference of verifyCorrection (verify.go): a token without
a slash gets /64 appended when it contains a colon and /32 otherwise; a token
with a slash is left unchanged. -/
def normalizeNetwork (networkOrIP : String) : String :=
  if strContainsChar networkOrIP '/' then networkOrIP
  else if strContainsChar networkOrIP ':' then networkOrIP ++ "/64"
  else networkOrIP ++ "/32"

/-- Most specific subdivision: the last element of the subdivision sequence,
empty string when there is none.  Models the decode of
subdivisions / -1 / iso_code, which leaves the zero value when absent. -/
def subdivisionLast (subs : List String) : String :=
  (subs.getLast?).getD ""

/-- The valid verificationResult literal of the source. -/
def validResult : VerificationResult :=
  { valid := true, invalidityType := none, invalidityReason := "" }

/-- Builds an invalid verificationResult as the source does. -/
def invalidResult (k : RowInvalidity) (reason : String) : VerificationResult :=
  { valid := false, invalidityType := some k, invalidityReason := reason }

/-- Diff construction of verifyCorrection: field-by-field case-insensitive
comparison in the fixed order country, region, city, postal code, with the
postal comparison guarded by a non-empty submitted postal field; on any
difference the AS number / AS name / ISP name lines are appended (each only
when non-zero or non-empty) and the lines are joined with a newline plus the
indent; otherwise the empty string is returned. -/
def buildDiff (networkOrIP countryCode mss cityName postalCode f1 f2 f3 f4 : String)
    (asNumber : Nat) (asName ispName : String) : String :=
  let indent := "\t\t"
  let countryDiff := !(equalFold f1 countryCode)
  let regionDiff := !(equalFold f2 mss)
  let cityDiff := !(equalFold f3 cityName)
  let postalDiff := (!(f4 == "")) && (!(equalFold f4 postalCode))
  let foundDiff := countryDiff || regionDiff || cityDiff || postalDiff
  let lines : List String :=
    ["\nFound a potential improvement: \x27" ++ networkOrIP ++ "\x27"]
    ++ (if countryDiff then
          ["current country: \x27" ++ countryCode ++ "\x27" ++ indent ++
           "suggested country: \x27" ++ f1 ++ "\x27"] else [])
    ++ (if regionDiff then
          ["current region: \x27" ++ mss ++ "\x27" ++ indent ++
           "suggested region: \x27" ++ f2 ++ "\x27"] else [])
    ++ (if cityDiff then
          ["current city: \x27" ++ cityName ++ "\x27" ++ indent ++
           "suggested city: \x27" ++ f3 ++ "\x27"] else [])
    ++ (if postalDiff then
          ["current postal code: \x27" ++ postalCode ++ "\x27" ++ indent ++
           "suggested postal code: \x27" ++ f4 ++ "\x27"] else [])
  if foundDiff then
    let lines := lines
      ++ (if 0 < asNumber then ["AS Number: " ++ toString asNumber] else [])
      ++ (if !(asName == "") then ["AS Name: " ++ asName] else [])
      ++ (if !(ispName == "") then ["ISP Name: " ++ ispName] else [])
    strJoin ("\n" ++ indent) lines
  else ""

/-- ISP stage and comparison tail of verifyCorrection: with an ISP database
configured the record is looked up (failure is UnableToFindISPRecord), the
histogram entry of a positive AS number is incremented, and the comparison
runs; without one the AS fields stay at their zero values and the comparison
runs with an unchanged histogram. -/
def ispStage (networkOrIP addr countryCode mss cityName postalCode f1 f2 f3 f4 : String)
    (ispdb : Option IspDB) (asnCounts : AsnCounts) :
    (String × VerificationResult) × AsnCounts :=
  match ispdb with
  | none =>
      ((buildDiff networkOrIP countryCode mss cityName postalCode f1 f2 f3 f4 0 "" "",
        validResult), asnCounts)
  | some ispLookup =>
      match ispLookup addr with
      | Except.error e =>
          (("", invalidResult RowInvalidity.UnableToFindISPRecord
              ("unable to find ISP record for " ++ networkOrIP ++ ": " ++ e)), asnCounts)
      | Except.ok r =>
          let asNumber := r.autonomousSystemNumber
          let asnCounts2 := if 0 < asNumber then bumpAsn asnCounts asNumber else asnCounts
          ((buildDiff networkOrIP countryCode mss cityName postalCode f1 f2 f3 f4
              asNumber r.autonomousSystemOrganization r.isp,
            validResult), asnCounts2)

/-- verifyCorrection from verify/verify.go: trims the fields, rejects an
empty network field, infers a prefix length, parses the network, looks up the
city record, applies the strict or lax region-code gate, then runs the ISP
stage and field comparison. -/
def verifyCorrection (correction : List String) (parseCIDR : CidrParse) (db : CityDB)
    (ispdb : Option IspDB) (asnCounts : AsnCounts) (opts : Options) :
    (String × VerificationResult) × AsnCounts :=
  let correction := correction.map trimSpace
  let networkOrIP := correction.getD 0 ""
  if networkOrIP = "" then
    (("", invalidResult RowInvalidity.EmptyNetwork
        ("network field is empty, row: \x27" ++ strJoin "," correction ++ "\x27")), asnCounts)
  else
    let networkOrIP := normalizeNetwork networkOrIP
    match parseCIDR networkOrIP with
    | Except.error e =>
        (("", invalidResult RowInvalidity.UnableToParseNetwork
            ("unable to parse network " ++ networkOrIP ++ ": " ++ e)), asnCounts)
    | Except.ok addr =>
        match db addr with
        | Except.error e =>
            (("", invalidResult RowInvalidity.UnableToFindCityRecord
                ("unable to find city record for " ++ networkOrIP ++ ": " ++ e)), asnCounts)
        | Except.ok rec =>
            let mss := subdivisionLast rec.subdivisions
            if strContainsChar (correction.getD 2 "") '-' then
              ispStage networkOrIP addr rec.countryIsoCode
                (rec.countryIsoCode ++ "-" ++ mss) rec.cityNameEn rec.postalCode
                (correction.getD 1 "") (correction.getD 2 "")
                (correction.getD 3 "") (correction.getD 4 "") ispdb asnCounts
            else if correction.getD 2 "" ≠ "" ∧ opts.laxMode = false then
              (("", invalidResult RowInvalidity.InvalidRegionCode
                  ("invalid ISO 3166-2 region code format in strict (default) mode, row: \x27"
                    ++ strJoin "," correction ++ "\x27")), asnCounts)
            else
              ispStage networkOrIP addr rec.countryIsoCode mss rec.cityNameEn rec.postalCode
                (correction.getD 1 "") (correction.getD 2 "")
                (correction.getD 3 "") (correction.getD 4 "") ispdb asnCounts

/-- The mutable state threaded through the row loop of ProcessGeofeed. -/
structure ProcState where
  c : CheckResult
  diffLines : List String
  asnCounts : AsnCounts
deriving DecidableEq

/-- Initial loop state of ProcessGeofeed. -/
def initState : ProcState :=
  { c := NewCheckResult, diffLines := [], asnCounts := [] }

/-- One iteration of the row loop of ProcessGeofeed: count the row; with
fewer than five fields classify FewerFieldsThanExpected (sampling the first
such message) and continue; otherwise verify the first five fields, and
either sample an invalid classification or record a non-empty diff line. -/
def processRow (parseCIDR : CidrParse) (db : CityDB) (ispdb : Option IspDB) (opts : Options)
    (st : ProcState) (row : List String) : ProcState :=
  let total := st.c.total + 1
  if row.length < 5 then
    { st with c :=
        { st.c with
          total := total
          invalid := st.c.invalid + 1
          sampleInvalidRows :=
            insertIfAbsent st.c.sampleInvalidRows RowInvalidity.FewerFieldsThanExpected
              ("line " ++ toString total ++ ": expected 5 fields but got "
                ++ toString row.length ++ ", row: \x27" ++ strJoin "," row ++ "\x27") } }
  else
    match verifyCorrection (row.take 5) parseCIDR db ispdb st.asnCounts opts with
    | ((diffLine, result), asn) =>
      if result.valid = false then
        { st with
          c :=
            { st.c with
              total := total
              invalid := st.c.invalid + 1
              sampleInvalidRows :=
                match result.invalidityType with
                | some k =>
                    insertIfAbsent st.c.sampleInvalidRows k
                      ("line " ++ toString total ++ ": " ++ result.invalidityReason)
                | none => st.c.sampleInvalidRows }
          asnCounts := asn }
      else if diffLine ≠ "" then
        { st with
          c := { st.c with total := total, differences := st.c.differences + 1 }
          diffLines := st.diffLines ++ [diffLine]
          asnCounts := asn }
      else
        { st with c := { st.c with total := total }, asnCounts := asn }

/-- The row loop of ProcessGeofeed over the delivered CSV rows. -/
def processRows (parseCIDR : CidrParse) (db : CityDB) (ispdb : Option IspDB) (opts : Options)
    (st : ProcState) : List (List String) → ProcState
  | [] => st
  | row :: rest =>
      processRows parseCIDR db ispdb opts (processRow parseCIDR db ispdb opts st row) rest

/-- ProcessGeofeed after the external boundary: run the row loop from the
fresh CheckResult, then decide the file-level outcome exactly as the source
does (empty check first, then the invalid check, else success). -/
def processGeofeedRows (parseCIDR : CidrParse) (db : CityDB) (ispdb : Option IspDB)
    (opts : Options) (rows : List (List String)) : ProcState × Option GeofeedError :=
  let st := processRows parseCIDR db ispdb opts initState rows
  if st.c.total = 0 ∧ opts.emptyOK = false then
    (st, some GeofeedError.ErrEmptyGeofeed)
  else if 0 < st.c.invalid ∨ 0 < st.c.sampleInvalidRows.length then
    (st, some GeofeedError.ErrInvalidGeofeed)
  else
    (st, none)

/-- Concrete CIDR parse oracle used by the witnesses: accepts the one test
prefix and rejects everything else with a parse error text. -/
def testParse : CidrParse := fun s =>
  if s = "2a02:ecc0::/29" then Except.ok "2a02:ecc0::"
  else Except.error ("invalid CIDR address: " ++ s)

/-- Concrete reference record used by the witnesses. -/
def testRecord : CityRecord :=
  { countryIsoCode := "US", subdivisions := ["NJ"],
    cityNameEn := "Parsippany", postalCode := "1060" }

/-- Concrete city database used by the witnesses. -/
def testCityDB : CityDB := fun a =>
  if a = "2a02:ecc0::" then Except.ok testRecord
  else Except.error "address not found"

/-- Concrete city database agreeing with testCityDB except on the postal
code, used by the postal-skip witness. -/
def testCityDB2 : CityDB := fun a =>
  if a = "2a02:ecc0::" then Except.ok { testRecord with postalCode := "9999" }
  else Except.error "address not found"

/-- Concrete ISP database used by the witnesses. -/
def testIspDB : IspDB := fun a =>
  if a = "2a02:ecc0::" then
    Except.ok { autonomousSystemNumber := 42,
                autonomousSystemOrganization := "Example Org", isp := "Example ISP" }
  else Except.error "address not found"

/-- Default (strict) options. -/
def strictOpts : Options :=
  { laxMode := false, hideFilePathsInErrorMessages := false, emptyOK := false }

/-- Options with lax region-code checking enabled. -/
def laxOpts : Options :=
  { laxMode := true, hideFilePathsInErrorMessages := false, emptyOK := false }

lemma append_ne_empty_left (s t : String) (h : s ≠ "") : s ++ t ≠ "" := by
  intro hc
  apply h
  have hd := congrArg String.data hc
  rw [String.data_append] at hd
  have hs : s.data = ([] : List Char) := (List.append_eq_nil.mp hd).1
  cases s
  cases t
  simp_all

lemma strJoin_cons_ne_empty (sep a : String) (l : List String) (h : a ≠ "") :
    strJoin sep (a :: l) ≠ "" := by
  cases l with
  | nil => simpa [strJoin] using h
  | cons b rest =>
      simp only [strJoin]
      exact append_ne_empty_left _ _ (append_ne_empty_left _ _ h)

lemma lookupSample_of_any_eq_false (m : List (RowInvalidity × String)) (k : RowInvalidity)
    (h : m.any (fun p => p.fst = k) = false) : lookupSample m k = none := by
  unfold lookupSample
  have : m.find? (fun p => p.fst = k) = none := by
    rw [List.find?_eq_none]
    intro x hx
    have := List.any_eq_false.mp h x hx
    simpa using this
  rw [this]

lemma any_eq_true_of_lookupSample (m : List (RowInvalidity × String)) (k : RowInvalidity)
    (v : String) (h : lookupSample m k = some v) : m.any (fun p => p.fst = k) = true := by
  unfold lookupSample at h
  rcases hf : m.find? (fun p => p.fst = k) with _ | p
  · rw [hf] at h; exact absurd h (by simp)
  · have hmem := List.mem_of_find?_eq_some hf
    have hp := List.find?_some hf
    exact List.any_eq_true.mpr ⟨p, hmem, hp⟩

lemma lookupSample_insertIfAbsent (m : List (RowInvalidity × String))
    (k k1 : RowInvalidity) (v w : String) (h : lookupSample m k = some v) :
    lookupSample (insertIfAbsent m k1 w) k = some v := by
  unfold insertIfAbsent
  split
  · exact h
  · unfold lookupSample at h ⊢
    rcases hf : m.find? (fun p => p.fst = k) with _ | p
    · rw [hf] at h; exact absurd h (by simp)
    · rw [hf] at h
      rw [List.find?_append, hf]
      simpa using h

lemma countP_insertIfAbsent (m : List (RowInvalidity × String)) (k k1 : RowInvalidity)
    (w : String) (h : m.countP (fun p => p.fst = k) ≤ 1) :
    (insertIfAbsent m k1 w).countP (fun p => p.fst = k) ≤ 1 := by
  unfold insertIfAbsent
  split
  · exact h
  · rename_i hany
    rw [List.countP_append]
    by_cases hk : k1 = k
    · subst hk
      have hz : m.countP (fun p => p.fst = k1) = 0 := by
        rw [List.countP_eq_zero]
        intro x hx hpx
        exact hany (List.any_eq_true.mpr ⟨x, hx, hpx⟩)
      simp [hz, List.countP_cons]
    · have : ((k1, w) :: []).countP (fun p => p.fst = k) = 0 := by
        simp [List.countP_cons, hk]
      omega

lemma verifyCorrection_asn_of_no_ispdb (row : List String) (parseCIDR : CidrParse)
    (db : CityDB) (m : AsnCounts) (opts : Options) :
    (verifyCorrection row parseCIDR db none m opts).2 = m := by
  simp only [verifyCorrection]
  split
  · rfl
  · split
    · rfl
    · split
      · rfl
      · split
        · simp [ispStage]
        · split
          · rfl
          · simp [ispStage]

lemma processRow_shape (parseCIDR : CidrParse) (db : CityDB) (ispdb : Option IspDB)
    (opts : Options) (st : ProcState) (row : List String) :
    (processRow parseCIDR db ispdb opts st row).c.total = st.c.total + 1 ∧
    (((processRow parseCIDR db ispdb opts st row).c.invalid = st.c.invalid + 1 ∧
      (processRow parseCIDR db ispdb opts st row).c.differences = st.c.differences ∧
      (processRow parseCIDR db ispdb opts st row).diffLines = st.diffLines) ∨
     ((processRow parseCIDR db ispdb opts st row).c.invalid = st.c.invalid ∧
      (processRow parseCIDR db ispdb opts st row).c.sampleInvalidRows =
        st.c.sampleInvalidRows ∧
      (((processRow parseCIDR db ispdb opts st row).c.differences = st.c.differences + 1 ∧
        (processRow parseCIDR db ispdb opts st row).diffLines.length =
          st.diffLines.length + 1) ∨
       ((processRow parseCIDR db ispdb opts st row).c.differences = st.c.differences ∧
        (processRow parseCIDR db ispdb opts st row).diffLines = st.diffLines)))) := by
  unfold processRow
  split
  · simp
  · rcases hv : verifyCorrection (row.take 5) parseCIDR db ispdb st.asnCounts opts with
      ⟨⟨diffLine, result⟩, asn⟩
    by_cases hval : result.valid = false
    · simp [hval]
    · by_cases hdl : diffLine ≠ ""
      · simp [hval, hdl]
      · simp [hval, hdl]

lemma processRows_invariant (parseCIDR : CidrParse) (db : CityDB) (ispdb : Option IspDB)
    (opts : Options) (P : ProcState → Prop)
    (hstep : ∀ st row, P st → P (processRow parseCIDR db ispdb opts st row)) :
    ∀ rows st, P st → P (processRows parseCIDR db ispdb opts st rows) := by
  intro rows
  induction rows with
  | nil => intro st h; exact h
  | cons row rest ih =>
      intro st h
      exact ih _ (hstep st row h)

lemma processRow_sample_shape (parseCIDR : CidrParse) (db : CityDB) (ispdb : Option IspDB)
    (opts : Options) (st : ProcState) (row : List String) :
    (processRow parseCIDR db ispdb opts st row).c.sampleInvalidRows =
      st.c.sampleInvalidRows ∨
    ∃ k1 w, (processRow parseCIDR db ispdb opts st row).c.sampleInvalidRows =
      insertIfAbsent st.c.sampleInvalidRows k1 w := by
  unfold processRow
  split
  · exact Or.inr ⟨_, _, rfl⟩
  · rcases hv : verifyCorrection (row.take 5) parseCIDR db ispdb st.asnCounts opts with
      ⟨⟨diffLine, result⟩, asn⟩
    by_cases hval : result.valid = false
    · rcases hty : result.invalidityType with _ | k1
      · exact Or.inl (by simp [hv, hval, hty])
      · exact Or.inr ⟨k1,
          "line " ++ toString (st.c.total + 1) ++ ": " ++ result.invalidityReason,
          by simp [hv, hval, hty]⟩
    · by_cases hdl : diffLine ≠ "" <;> exact Or.inl (by simp [hv, hval, hdl])

lemma processRows_sound (parseCIDR : CidrParse) (db : CityDB) (ispdb : Option IspDB)
    (opts : Options) (rows : List (List String)) :
    ((processRows parseCIDR db ispdb opts initState rows).c.sampleInvalidRows ≠ [] →
      0 < (processRows parseCIDR db ispdb opts initState rows).c.invalid) ∧
    (processRows parseCIDR db ispdb opts initState rows).c.invalid ≤
      (processRows parseCIDR db ispdb opts initState rows).c.total := by
  refine processRows_invariant parseCIDR db ispdb opts
    (fun st => (st.c.sampleInvalidRows ≠ [] → 0 < st.c.invalid) ∧
      st.c.invalid ≤ st.c.total) ?_ rows initState ?_
  · intro st row hP
    have h := processRow_shape parseCIDR db ispdb opts st row
    rcases h.2 with ⟨hi, _, _⟩ | ⟨hi, hsamp, _⟩
    · exact ⟨fun _ => by omega, by omega⟩
    · refine ⟨fun hne => ?_, by omega⟩
      rw [hsamp] at hne
      have := hP.1 hne
      omega
  · exact ⟨fun h => absurd rfl h, Nat.le_refl 0⟩

/-- C10: every row read adds exactly one to total and never increments both the
invalid and the differences counters; consequently, starting from the fresh
CheckResult, invalid plus differences never exceeds total and the differences
counter equals the number of accumulated diff lines at every point of the
row loop. -/
theorem claim10_counters_never_both (parseCIDR : CidrParse) (db : CityDB)
    (ispdb : Option IspDB) (opts : Options) :
    (∀ st row,
      (processRow parseCIDR db ispdb opts st row).c.total = st.c.total + 1 ∧
      ¬((processRow parseCIDR db ispdb opts st row).c.invalid = st.c.invalid + 1 ∧
        (processRow parseCIDR db ispdb opts st row).c.differences =
          st.c.differences + 1)) ∧
    (∀ rows,
      (processRows parseCIDR db ispdb opts initState rows).c.invalid +
        (processRows parseCIDR db ispdb opts initState rows).c.differences ≤
        (processRows parseCIDR db ispdb opts initState rows).c.total ∧
      (processRows parseCIDR db ispdb opts initState rows).c.differences =
        (processRows parseCIDR db ispdb opts initState rows).diffLines.length) := by
  constructor
  · intro st row
    have h := processRow_shape parseCIDR db ispdb opts st row
    refine ⟨h.1, ?_⟩
    rcases h.2 with ⟨h1, h2, _⟩ | ⟨h1, _, ⟨h2, _⟩ | ⟨h2, _⟩⟩ <;> omega
  · intro rows
    refine processRows_invariant parseCIDR db ispdb opts
      (fun st => st.c.invalid + st.c.differences ≤ st.c.total ∧
        st.c.differences = st.diffLines.length) ?_ rows initState ?_
    · intro st row hP
      have h := processRow_shape parseCIDR db ispdb opts st row
      have h1 := h.1
      rcases h.2 with ⟨hi, hd, hl⟩ | ⟨hi, _, ⟨hd, hl⟩ | ⟨hd, hl⟩⟩
      · have hl2 := congrArg List.length hl
        exact ⟨by omega, by omega⟩
      · exact ⟨by omega, by omega⟩
      · have hl2 := congrArg List.length hl
        exact ⟨by omega, by omega⟩
    · exact ⟨Nat.le_refl 0, rfl⟩

/-- C6: with zero rows read, ProcessGeofeed fails with the empty-geofeed error
and total zero when empty_ok is false, and succeeds with all counters zero
when empty_ok is true. -/
theorem claim6_empty_file (parseCIDR : CidrParse) (db : CityDB) (ispdb : Option IspDB)
    (lax hide : Bool) :
    (processGeofeedRows parseCIDR db ispdb
        { laxMode := lax, hideFilePathsInErrorMessages := hide, emptyOK := false } [] =
        (initState, some GeofeedError.ErrEmptyGeofeed) ∧
      initState.c.total = 0) ∧
    (processGeofeedRows parseCIDR db ispdb
        { laxMode := lax, hideFilePathsInErrorMessages := hide, emptyOK := true } [] =
        (initState, none) ∧
      initState.c.total = 0 ∧ initState.c.differences = 0 ∧ initState.c.invalid = 0) := by
  constructor <;> simp [processGeofeedRows, processRows, initState, NewCheckResult]

/-- C5: when at least one row was classified invalid, ProcessGeofeed reports
the distinguished invalid-geofeed error while returning the full accumulated
state (CheckResult, diff lines and ASN histogram); with no invalid row and a
non-empty file it reports success. -/
theorem claim5_invalid_aggregate (parseCIDR : CidrParse) (db : CityDB)
    (ispdb : Option IspDB) (opts : Options) (rows : List (List String)) :
    (0 < (processRows parseCIDR db ispdb opts initState rows).c.invalid →
      processGeofeedRows parseCIDR db ispdb opts rows =
        (processRows parseCIDR db ispdb opts initState rows,
          some GeofeedError.ErrInvalidGeofeed)) ∧
    ((processRows parseCIDR db ispdb opts initState rows).c.invalid = 0 →
      0 < (processRows parseCIDR db ispdb opts initState rows).c.total →
      processGeofeedRows parseCIDR db ispdb opts rows =
        (processRows parseCIDR db ispdb opts initState rows, none)) := by
  have hs := processRows_sound parseCIDR db ispdb opts rows
  constructor
  · intro h
    unfold processGeofeedRows
    rw [if_neg, if_pos (Or.inl h)]
    intro hc
    omega
  · intro h1 h2
    have hsamp : (processRows parseCIDR db ispdb opts initState rows).c.sampleInvalidRows
        = [] := by
      by_contra hne
      have := hs.1 hne
      omega
    unfold processGeofeedRows
    rw [if_neg, if_neg]
    · intro hc
      rcases hc with hc | hc
      · omega
      · rw [hsamp] at hc
        simp at hc
    · intro hc
      omega

/-- Witness for C5 at concrete inputs: a one-field row yields one invalid row
and the invalid-geofeed error; a fully matching five-field row yields a clean
success. -/
theorem claim5_witness :
    (0 < (processRows testParse testCityDB none strictOpts initState [["x"]]).c.invalid ∧
      processGeofeedRows testParse testCityDB none strictOpts [["x"]] =
        (processRows testParse testCityDB none strictOpts initState [["x"]],
          some GeofeedError.ErrInvalidGeofeed)) ∧
    ((processRows testParse testCityDB none strictOpts initState
        [["2a02:ecc0::/29", "US", "US-NJ", "Parsippany", ""]]).c.invalid = 0 ∧
      0 < (processRows testParse testCityDB none strictOpts initState
        [["2a02:ecc0::/29", "US", "US-NJ", "Parsippany", ""]]).c.total ∧
      processGeofeedRows testParse testCityDB none strictOpts
        [["2a02:ecc0::/29", "US", "US-NJ", "Parsippany", ""]] =
        (processRows testParse testCityDB none strictOpts initState
          [["2a02:ecc0::/29", "US", "US-NJ", "Parsippany", ""]], none)) :=
  ⟨⟨by decide,
    (claim5_invalid_aggregate testParse testCityDB none strictOpts [["x"]]).1 (by decide)⟩,
   ⟨by decide, by decide,
    (claim5_invalid_aggregate testParse testCityDB none strictOpts
      [["2a02:ecc0::/29", "US", "US-NJ", "Parsippany", ""]]).2 (by decide) (by decide)⟩⟩

/-- C7: a row with fewer than five fields is classified
FewerFieldsThanExpected, counted as invalid with its message sampled, and
touches neither the differences counter, the diff lines nor the ASN
histogram; a row with five or more fields is processed exactly as its first
five fields. -/
theorem claim7_field_count (parseCIDR : CidrParse) (db : CityDB) (ispdb : Option IspDB)
    (opts : Options) :
    (∀ st row, row.length < 5 →
      processRow parseCIDR db ispdb opts st row =
        { st with c :=
            { st.c with
              total := st.c.total + 1
              invalid := st.c.invalid + 1
              sampleInvalidRows :=
                insertIfAbsent st.c.sampleInvalidRows RowInvalidity.FewerFieldsThanExpected
                  ("line " ++ toString (st.c.total + 1) ++ ": expected 5 fields but got "
                    ++ toString row.length ++ ", row: \x27" ++ strJoin "," row ++ "\x27") } }) ∧
    (∀ st row, 5 ≤ row.length →
      processRow parseCIDR db ispdb opts st row =
        processRow parseCIDR db ispdb opts st (row.take 5)) := by
  constructor
  · intro st row h
    unfold processRow
    rw [if_pos h]
  · intro st row h
    have hlen : (row.take 5).length = 5 := by
      rw [List.length_take]
      omega
    unfold processRow
    rw [if_neg (by omega), if_neg (by omega), List.take_take]
    simp

/-- Witness for C7 at concrete inputs: a two-field row and a six-field row. -/
theorem claim7_witness :
    processRow testParse testCityDB none strictOpts initState ["a", "b"] =
      { initState with c :=
          { initState.c with
            total := 1
            invalid := 1
            sampleInvalidRows :=
              insertIfAbsent initState.c.sampleInvalidRows
                RowInvalidity.FewerFieldsThanExpected
                ("line " ++ toString 1 ++ ": expected 5 fields but got "
                  ++ toString 2 ++ ", row: \x27" ++ strJoin "," ["a", "b"] ++ "\x27") } } ∧
    processRow testParse testCityDB none strictOpts initState
        ["2a02:ecc0::/29", "US", "US-NJ", "Parsippany", "", "extra"] =
      processRow testParse testCityDB none strictOpts initState
        ["2a02:ecc0::/29", "US", "US-NJ", "Parsippany", ""] :=
  ⟨(claim7_field_count testParse testCityDB none strictOpts).1 initState ["a", "b"]
      (by decide),
   (claim7_field_count testParse testCityDB none strictOpts).2 initState
      ["2a02:ecc0::/29", "US", "US-NJ", "Parsippany", "", "extra"] (by decide)⟩

/-- C4: sample_invalid_rows keeps at most one message per invalidity kind; a
stored sample is never replaced by later rows; an invalid row always
increments the invalid counter and inserts its line-numbered message only
when its kind has no sample yet. -/
theorem claim4_sample_first_per_kind (parseCIDR : CidrParse) (db : CityDB)
    (ispdb : Option IspDB) (opts : Options) :
    (∀ st rows k v, lookupSample st.c.sampleInvalidRows k = some v →
      lookupSample
        (processRows parseCIDR db ispdb opts st rows).c.sampleInvalidRows k = some v) ∧
    (∀ st row k reason, 5 ≤ row.length →
      (verifyCorrection (row.take 5) parseCIDR db ispdb st.asnCounts opts).1.2 =
        invalidResult k reason →
      (processRow parseCIDR db ispdb opts st row).c.invalid = st.c.invalid + 1 ∧
      (processRow parseCIDR db ispdb opts st row).c.sampleInvalidRows =
        insertIfAbsent st.c.sampleInvalidRows k
          ("line " ++ toString (st.c.total + 1) ++ ": " ++ reason)) ∧
    (∀ st row, row.length < 5 →
      (processRow parseCIDR db ispdb opts st row).c.invalid = st.c.invalid + 1 ∧
      (processRow parseCIDR db ispdb opts st row).c.sampleInvalidRows =
        insertIfAbsent st.c.sampleInvalidRows RowInvalidity.FewerFieldsThanExpected
          ("line " ++ toString (st.c.total + 1) ++ ": expected 5 fields but got "
            ++ toString row.length ++ ", row: \x27" ++ strJoin "," row ++ "\x27")) ∧
    (∀ rows k,
      ((processRows parseCIDR db ispdb opts initState rows).c.sampleInvalidRows).countP
        (fun p => p.fst = k) ≤ 1) := by
  refine ⟨?_, ?_, ?_, ?_⟩
  · intro st rows k v h
    refine processRows_invariant parseCIDR db ispdb opts
      (fun st => lookupSample st.c.sampleInvalidRows k = some v) ?_ rows st h
    intro st2 row hP
    rcases processRow_sample_shape parseCIDR db ispdb opts st2 row with hsh | ⟨k1, w, hsh⟩
    · rw [hsh]; exact hP
    · rw [hsh]; exact lookupSample_insertIfAbsent _ _ _ _ _ hP
  · intro st row k reason h5 hres
    unfold processRow
    rw [if_neg (by omega)]
    rcases hv : verifyCorrection (row.take 5) parseCIDR db ispdb st.asnCounts opts with
      ⟨⟨diffLine, result⟩, asn⟩
    have hres2 : result = invalidResult k reason := by
      rw [hv] at hres
      exact hres
    constructor <;> simp [hres2, invalidResult]
  · intro st row h5
    unfold processRow
    rw [if_pos h5]
    exact ⟨rfl, rfl⟩
  · intro rows k
    refine processRows_invariant parseCIDR db ispdb opts
      (fun st => (st.c.sampleInvalidRows).countP (fun p => p.fst = k) ≤ 1) ?_ rows
      initState (by simp [initState, NewCheckResult])
    intro st row hP
    rcases processRow_sample_shape parseCIDR db ispdb opts st row with hsh | ⟨k1, w, hsh⟩
    · rw [hsh]; exact hP
    · rw [hsh]; exact countP_insertIfAbsent _ _ _ _ hP

/-- Witness for C4 at concrete inputs: a stored sample for
FewerFieldsThanExpected survives a second short row, and the invalid-row step
of a strict-mode bare region code inserts the classified message. -/
theorem claim4_witness :
    lookupSample
      (processRows testParse testCityDB none strictOpts
        (processRow testParse testCityDB none strictOpts initState ["a"])
        [["b"], ["c"]]).c.sampleInvalidRows RowInvalidity.FewerFieldsThanExpected =
      some "line 1: expected 5 fields but got 1, row: \x27a\x27" ∧
    (5 ≤ (["2a02:ecc0::/29", "US", "NJ", "Parsippany", ""] : List String).length ∧
      (processRow testParse testCityDB none strictOpts initState
        ["2a02:ecc0::/29", "US", "NJ", "Parsippany", ""]).c.invalid = 0 + 1) ∧
    ((processRows testParse testCityDB none strictOpts initState
        [["a"], ["b"], ["c"]]).c.sampleInvalidRows).countP
      (fun p => p.fst = RowInvalidity.FewerFieldsThanExpected) ≤ 1 := by
  refine ⟨?_, ⟨by decide, ?_⟩, ?_⟩
  · exact (claim4_sample_first_per_kind testParse testCityDB none strictOpts).1
      (processRow testParse testCityDB none strictOpts initState ["a"]) [["b"], ["c"]]
      RowInvalidity.FewerFieldsThanExpected _ (by decide)
  · exact ((claim4_sample_first_per_kind testParse testCityDB none strictOpts).2.1
      initState ["2a02:ecc0::/29", "US", "NJ", "Parsippany", ""]
      RowInvalidity.InvalidRegionCode
      ("invalid ISO 3166-2 region code format in strict (default) mode, row: \x27" ++
        strJoin "," ["2a02:ecc0::/29", "US", "NJ", "Parsippany", ""] ++ "\x27")
      (by decide) (by decide)).1
  · exact (claim4_sample_first_per_kind testParse testCityDB none strictOpts).2.2.2
      [["a"], ["b"], ["c"]] RowInvalidity.FewerFieldsThanExpected

lemma strContainsChar_append_right (s t : String) (c : Char)
    (h : strContainsChar t c = true) : strContainsChar (s ++ t) c = true := by
  unfold strContainsChar at *
  rw [String.data_append]
  simp only [List.elem_eq_mem, List.mem_append, decide_eq_true_eq] at *
  exact Or.inr h

lemma verifyCorrection_reach (f0 f1 f2 f3 f4 : String) (parseCIDR : CidrParse)
    (db : CityDB) (ispdb : Option IspDB) (m : AsnCounts) (opts : Options)
    (addr : String) (rec : CityRecord)
    (hnet : trimSpace f0 ≠ "")
    (hparse : parseCIDR (normalizeNetwork (trimSpace f0)) = Except.ok addr)
    (hcity : db addr = Except.ok rec) :
    verifyCorrection [f0, f1, f2, f3, f4] parseCIDR db ispdb m opts =
      (if strContainsChar (trimSpace f2) '-' then
        ispStage (normalizeNetwork (trimSpace f0)) addr rec.countryIsoCode
          (rec.countryIsoCode ++ "-" ++ subdivisionLast rec.subdivisions)
          rec.cityNameEn rec.postalCode (trimSpace f1) (trimSpace f2) (trimSpace f3)
          (trimSpace f4) ispdb m
      else if trimSpace f2 ≠ "" ∧ opts.laxMode = false then
        (("", invalidResult RowInvalidity.InvalidRegionCode
            ("invalid ISO 3166-2 region code format in strict (default) mode, row: \x27"
              ++ strJoin ","
                  [trimSpace f0, trimSpace f1, trimSpace f2, trimSpace f3, trimSpace f4]
              ++ "\x27")), m)
      else
        ispStage (normalizeNetwork (trimSpace f0)) addr rec.countryIsoCode
          (subdivisionLast rec.subdivisions) rec.cityNameEn rec.postalCode
          (trimSpace f1) (trimSpace f2) (trimSpace f3) (trimSpace f4) ispdb m) := by
  unfold verifyCorrection
  simp only [List.map_cons, List.map_nil, List.getD_cons_zero, List.getD_cons_succ,
    if_neg hnet, hparse, hcity]

/-- C8: prefix-length inference leaves a token containing a slash unchanged
(and hence is idempotent), appends /32 to a bare IPv4 host and /64 to a bare
IPv6 host; a row whose trimmed network field is empty is classified
EmptyNetwork, and a normalized token the CIDR parser rejects is classified
UnableToParseNetwork. -/
theorem claim8_network_normalization :
    (∀ s, strContainsChar s '/' = true → normalizeNetwork s = s) ∧
    (∀ s, strContainsChar s '/' = false →
      normalizeNetwork s =
        if strContainsChar s ':' = true then s ++ "/64" else s ++ "/32") ∧
    (∀ s, normalizeNetwork (normalizeNetwork s) = normalizeNetwork s) ∧
    (normalizeNetwork "192.0.2.1/24" = "192.0.2.1/24" ∧
     normalizeNetwork "192.0.2.1" = "192.0.2.1/32" ∧
     normalizeNetwork "2001:db8::1" = "2001:db8::1/64") ∧
    (∀ f0 f1 f2 f3 f4 parseCIDR db ispdb m opts, trimSpace f0 = "" →
      (verifyCorrection [f0, f1, f2, f3, f4] parseCIDR db ispdb m opts).1.2 =
        invalidResult RowInvalidity.EmptyNetwork
          ("network field is empty, row: \x27"
            ++ strJoin ","
                [trimSpace f0, trimSpace f1, trimSpace f2, trimSpace f3, trimSpace f4]
            ++ "\x27")) ∧
    (∀ f0 f1 f2 f3 f4 parseCIDR db ispdb m opts e, trimSpace f0 ≠ "" →
      parseCIDR (normalizeNetwork (trimSpace f0)) = Except.error e →
      (verifyCorrection [f0, f1, f2, f3, f4] parseCIDR db ispdb m opts).1.2 =
        invalidResult RowInvalidity.UnableToParseNetwork
          ("unable to parse network " ++ normalizeNetwork (trimSpace f0) ++ ": " ++ e)) := by
  refine ⟨?_, ?_, ?_, ⟨by decide, by decide, by decide⟩, ?_, ?_⟩
  · intro s h
    unfold normalizeNetwork
    rw [if_pos h]
  · intro s h
    unfold normalizeNetwork
    rw [if_neg (by simp [h])]
  · intro s
    by_cases h : strContainsChar s '/' = true
    · rw [show normalizeNetwork s = s from by unfold normalizeNetwork; rw [if_pos h]]
      unfold normalizeNetwork
      rw [if_pos h]
    · unfold normalizeNetwork
      rw [if_neg h]
      by_cases hc : strContainsChar s ':' = true
      · rw [if_pos hc, if_pos (strContainsChar_append_right s "/64" '/' (by decide))]
      · rw [if_neg hc, if_pos (strContainsChar_append_right s "/32" '/' (by decide))]
  · intro f0 f1 f2 f3 f4 parseCIDR db ispdb m opts h0
    unfold verifyCorrection
    simp only [List.map_cons, List.map_nil, List.getD_cons_zero, List.getD_cons_succ,
      if_pos h0]
  · intro f0 f1 f2 f3 f4 parseCIDR db ispdb m opts e h0 hp
    unfold verifyCorrection
    simp only [List.map_cons, List.map_nil, List.getD_cons_zero, List.getD_cons_succ,
      if_neg h0, hp]

/-- Witness for C8 at concrete inputs: a slash-carrying token is kept, an
empty network field is EmptyNetwork, a rejected token is
UnableToParseNetwork. -/
theorem claim8_witness :
    (strContainsChar "192.0.2.1/24" '/' = true ∧
      normalizeNetwork "192.0.2.1/24" = "192.0.2.1/24") ∧
    (trimSpace " " = "" ∧
      (verifyCorrection [" ", "US", "US-NJ", "Parsippany", ""]
          testParse testCityDB none [] strictOpts).1.2 =
        invalidResult RowInvalidity.EmptyNetwork
          ("network field is empty, row: \x27"
            ++ strJoin ","
                [trimSpace " ", trimSpace "US", trimSpace "US-NJ", trimSpace "Parsippany",
                  trimSpace ""]
            ++ "\x27")) ∧
    (trimSpace "10.0.0.0/8" ≠ "" ∧
      (testParse (normalizeNetwork (trimSpace "10.0.0.0/8")) =
        Except.error ("invalid CIDR address: " ++ "10.0.0.0/8")) ∧
      (verifyCorrection ["10.0.0.0/8", "US", "US-NJ", "Parsippany", ""]
          testParse testCityDB none [] strictOpts).1.2 =
        invalidResult RowInvalidity.UnableToParseNetwork
          ("unable to parse network " ++ normalizeNetwork (trimSpace "10.0.0.0/8") ++ ": "
            ++ ("invalid CIDR address: " ++ "10.0.0.0/8"))) :=
  ⟨⟨by decide, (claim8_network_normalization.1 "192.0.2.1/24" (by decide))⟩,
   ⟨by decide, claim8_network_normalization.2.2.2.2.1 " " "US" "US-NJ" "Parsippany" ""
      testParse testCityDB none [] strictOpts (by decide)⟩,
   ⟨by decide, by rfl, claim8_network_normalization.2.2.2.2.2 "10.0.0.0/8" "US" "US-NJ"
      "Parsippany" "" testParse testCityDB none [] strictOpts
      ("invalid CIDR address: " ++ "10.0.0.0/8") (by decide) (by rfl)⟩⟩

lemma buildDiff_postal_irrelevant (net cc mss city p p2 f1 f2 f3 : String)
    (asN : Nat) (asName ispName : String) :
    buildDiff net cc mss city p f1 f2 f3 "" asN asName ispName =
      buildDiff net cc mss city p2 f1 f2 f3 "" asN asName ispName := by
  unfold buildDiff
  simp

lemma ispStage_postal_irrelevant (net addr cc mss city p p2 f1 f2 f3 : String)
    (ispdb : Option IspDB) (m : AsnCounts) :
    ispStage net addr cc mss city p f1 f2 f3 "" ispdb m =
      ispStage net addr cc mss city p2 f1 f2 f3 "" ispdb m := by
  cases ispdb with
  | none =>
      simp only [ispStage]
      rw [buildDiff_postal_irrelevant net cc mss city p p2 f1 f2 f3]
  | some ispLookup =>
      simp only [ispStage]
      cases hx : ispLookup addr with
      | error e => rfl
      | ok r =>
          simp only [hx]
          rw [buildDiff_postal_irrelevant net cc mss city p p2 f1 f2 f3]

lemma buildDiff_ne_of_postal (net cc mss city p f1 f2 f3 f4 : String) (asN : Nat)
    (asName ispName : String) (h4 : f4 ≠ "") (hcmp : equalFold f4 p = false) :
    buildDiff net cc mss city p f1 f2 f3 f4 asN asName ispName ≠ "" := by
  unfold buildDiff
  have h4b : (f4 == "") = false := by simp [h4]
  simp only [h4b, hcmp, Bool.not_false, Bool.and_true, Bool.and_self, Bool.or_true,
    if_true, List.cons_append, List.nil_append]
  exact strJoin_cons_ne_empty _ _ _ (append_ne_empty_left _ _ (append_ne_empty_left _ _
    (by decide)))

/-- C3: a trimmed non-empty region code without a dash is rejected as
InvalidRegionCode in strict mode before any field comparison, whatever the
reference record holds; in lax mode the same row is accepted and its region
code decides the diff by a case-insensitive comparison against the most
specific (last) subdivision of the reference record. -/
theorem claim3_region_code_gate (f0 f1 f2 f3 f4 : String) (parseCIDR : CidrParse)
    (db : CityDB) (m : AsnCounts) (opts : Options) (addr : String) (rec : CityRecord)
    (hnet : trimSpace f0 ≠ "")
    (hparse : parseCIDR (normalizeNetwork (trimSpace f0)) = Except.ok addr)
    (hcity : db addr = Except.ok rec)
    (hbare : strContainsChar (trimSpace f2) '-' = false)
    (hne : trimSpace f2 ≠ "") :
    (∀ ispdb, opts.laxMode = false →
      verifyCorrection [f0, f1, f2, f3, f4] parseCIDR db ispdb m opts =
        (("", invalidResult RowInvalidity.InvalidRegionCode
            ("invalid ISO 3166-2 region code format in strict (default) mode, row: \x27"
              ++ strJoin ","
                  [trimSpace f0, trimSpace f1, trimSpace f2, trimSpace f3, trimSpace f4]
              ++ "\x27")), m)) ∧
    (opts.laxMode = true →
      (verifyCorrection [f0, f1, f2, f3, f4] parseCIDR db none m opts).1.2 = validResult ∧
      (equalFold (trimSpace f1) rec.countryIsoCode = true →
        equalFold (trimSpace f3) rec.cityNameEn = true →
        trimSpace f4 = "" →
        ((verifyCorrection [f0, f1, f2, f3, f4] parseCIDR db none m opts).1.1 = "" ↔
          equalFold (trimSpace f2) (subdivisionLast rec.subdivisions) = true))) := by
  constructor
  · intro ispdb hlax
    rw [verifyCorrection_reach f0 f1 f2 f3 f4 parseCIDR db ispdb m opts addr rec
      hnet hparse hcity]
    rw [if_neg (by simp [hbare]), if_pos ⟨hne, hlax⟩]
  · intro hlax
    rw [verifyCorrection_reach f0 f1 f2 f3 f4 parseCIDR db none m opts addr rec
      hnet hparse hcity]
    rw [if_neg (by simp [hbare]), if_neg (by simp [hlax])]
    refine ⟨rfl, ?_⟩
    intro h1 h3 h4
    unfold ispStage buildDiff
    simp only [h1, h3, h4, Bool.not_true, Bool.not_false, Bool.false_or, Bool.or_false,
      beq_self_eq_true, Bool.and_false, Bool.false_and, if_neg, if_false,
      List.append_nil, List.nil_append, List.cons_append]
    by_cases hr : equalFold (trimSpace f2) (subdivisionLast rec.subdivisions) = true
    · simp [hr]
    · have hr2 : equalFold (trimSpace f2) (subdivisionLast rec.subdivisions) = false :=
        Bool.not_eq_true _ ▸ hr
      simp only [hr2, Bool.not_false, if_true, Bool.true_or, Bool.or_true]
      constructor
      · intro hcontra
        exact absurd hcontra (strJoin_cons_ne_empty _ _ _
          (append_ne_empty_left _ _ (append_ne_empty_left _ _ (by decide))))
      · intro hcontra
        simp at hcontra

/-- Witness for C3 at concrete inputs: the bare region code NJ is rejected in
strict mode and accepted in lax mode, where it is compared case-insensitively
against the most specific subdivision. -/
theorem claim3_witness :
    verifyCorrection ["2a02:ecc0::/29", "US", "NJ", "Parsippany", ""] testParse testCityDB
        none [] strictOpts =
      (("", invalidResult RowInvalidity.InvalidRegionCode
          ("invalid ISO 3166-2 region code format in strict (default) mode, row: \x27"
            ++ strJoin ","
                [trimSpace "2a02:ecc0::/29", trimSpace "US", trimSpace "NJ",
                  trimSpace "Parsippany", trimSpace ""]
            ++ "\x27")), []) ∧
    ((verifyCorrection ["2a02:ecc0::/29", "US", "NJ", "Parsippany", ""] testParse testCityDB
        none [] laxOpts).1.2 = validResult ∧
      ((verifyCorrection ["2a02:ecc0::/29", "US", "NJ", "Parsippany", ""] testParse
          testCityDB none [] laxOpts).1.1 = "" ↔
        equalFold (trimSpace "NJ") (subdivisionLast testRecord.subdivisions) = true)) :=
  ⟨(claim3_region_code_gate "2a02:ecc0::/29" "US" "NJ" "Parsippany" "" testParse testCityDB
      [] strictOpts "2a02:ecc0::" testRecord (by decide) (by rfl) (by rfl) (by decide)
      (by decide)).1 none rfl,
   by
    have h := (claim3_region_code_gate "2a02:ecc0::/29" "US" "NJ" "Parsippany" "" testParse
      testCityDB [] laxOpts "2a02:ecc0::" testRecord (by decide) (by rfl) (by rfl)
      (by decide) (by decide)).2 rfl
    exact ⟨h.1, h.2 (by decide) (by decide) (by decide)⟩⟩

/-- C9: when the trimmed postal field of the row is empty, the verification
outcome is entirely independent of the postal code held by the reference
record; when it is non-empty and differs case-insensitively, the row is
marked as differing. -/
theorem claim9_postal_comparison (f0 f1 f2 f3 f4 p2 : String) (parseCIDR : CidrParse)
    (db1 db2 : CityDB) (ispdb : Option IspDB) (m : AsnCounts) (opts : Options)
    (addr : String) (rec : CityRecord)
    (hnet : trimSpace f0 ≠ "")
    (hparse : parseCIDR (normalizeNetwork (trimSpace f0)) = Except.ok addr)
    (hcity1 : db1 addr = Except.ok rec)
    (hcity2 : db2 addr = Except.ok { rec with postalCode := p2 }) :
    (trimSpace f4 = "" →
      verifyCorrection [f0, f1, f2, f3, f4] parseCIDR db1 ispdb m opts =
        verifyCorrection [f0, f1, f2, f3, f4] parseCIDR db2 ispdb m opts) ∧
    (trimSpace f4 ≠ "" →
      equalFold (trimSpace f4) rec.postalCode = false →
      (strContainsChar (trimSpace f2) '-' = true ∨ trimSpace f2 = "" ∨
        opts.laxMode = true) →
      (verifyCorrection [f0, f1, f2, f3, f4] parseCIDR db1 none m opts).1.1 ≠ "" ∧
      (verifyCorrection [f0, f1, f2, f3, f4] parseCIDR db1 none m opts).1.2 =
        validResult) := by
  constructor
  · intro hf4
    rw [verifyCorrection_reach f0 f1 f2 f3 f4 parseCIDR db1 ispdb m opts addr rec
        hnet hparse hcity1,
      verifyCorrection_reach f0 f1 f2 f3 f4 parseCIDR db2 ispdb m opts addr
        { rec with postalCode := p2 } hnet hparse hcity2]
    rw [hf4]
    by_cases hdash : strContainsChar (trimSpace f2) '-' = true
    · rw [if_pos hdash, if_pos hdash]
      exact ispStage_postal_irrelevant _ addr _ _ _ rec.postalCode p2 _ _ _ ispdb m
    · rw [if_neg hdash, if_neg hdash]
      by_cases hstrict : trimSpace f2 ≠ "" ∧ opts.laxMode = false
      · rw [if_pos hstrict, if_pos hstrict]
      · rw [if_neg hstrict, if_neg hstrict]
        exact ispStage_postal_irrelevant _ addr _ _ _ rec.postalCode p2 _ _ _ ispdb m
  · intro hf4 hcmp hreg
    rw [verifyCorrection_reach f0 f1 f2 f3 f4 parseCIDR db1 none m opts addr rec
        hnet hparse hcity1]
    have hmain : ∀ mss,
        ((ispStage (normalizeNetwork (trimSpace f0)) addr rec.countryIsoCode mss
          rec.cityNameEn rec.postalCode (trimSpace f1) (trimSpace f2) (trimSpace f3)
          (trimSpace f4) none m).1.1 ≠ "" ∧
        (ispStage (normalizeNetwork (trimSpace f0)) addr rec.countryIsoCode mss
          rec.cityNameEn rec.postalCode (trimSpace f1) (trimSpace f2) (trimSpace f3)
          (trimSpace f4) none m).1.2 = validResult) := by
      intro mss
      simp only [ispStage]
      exact ⟨buildDiff_ne_of_postal _ _ _ _ _ _ _ _ _ _ _ _ hf4 hcmp, trivial⟩
    rcases hreg with hdash | hf2 | hlax
    · rw [if_pos hdash]
      exact hmain _
    · rw [if_neg (by rw [hf2]; decide), if_neg (by rw [hf2]; simp)]
      exact hmain _
    · by_cases hdash : strContainsChar (trimSpace f2) '-' = true
      · rw [if_pos hdash]
        exact hmain _
      · rw [if_neg hdash, if_neg (by rw [hlax]; simp)]
        exact hmain _

/-- Witness for C9 at concrete inputs: with an empty postal field the outcome
is the same against two references differing only in postal code; with the
postal field 34021 against reference postal 1060 the row differs. -/
theorem claim9_witness :
    verifyCorrection ["2a02:ecc0::/29", "US", "US-NJ", "Parsippany", ""] testParse
        testCityDB none [] strictOpts =
      verifyCorrection ["2a02:ecc0::/29", "US", "US-NJ", "Parsippany", ""] testParse
        testCityDB2 none [] strictOpts ∧
    ((verifyCorrection ["2a02:ecc0::/29", "US", "US-NJ", "Parsippany", "34021"] testParse
        testCityDB none [] strictOpts).1.1 ≠ "" ∧
      (verifyCorrection ["2a02:ecc0::/29", "US", "US-NJ", "Parsippany", "34021"] testParse
        testCityDB none [] strictOpts).1.2 = validResult) :=
  ⟨(claim9_postal_comparison "2a02:ecc0::/29" "US" "US-NJ" "Parsippany" "" "9999"
      testParse testCityDB testCityDB2 none [] strictOpts "2a02:ecc0::" testRecord
      (by decide) (by rfl) (by rfl) (by rfl)).1 (by decide),
   (claim9_postal_comparison "2a02:ecc0::/29" "US" "US-NJ" "Parsippany" "34021" "9999"
      testParse testCityDB testCityDB2 none [] strictOpts "2a02:ecc0::" testRecord
      (by decide) (by rfl) (by rfl) (by rfl)).2 (by decide) (by decide)
      (Or.inl (by decide))⟩

/-- Counterexample to C1 as stated: a row whose verification succeeds with no
field difference still contributes to the ASN histogram when the ISP lookup
yields a positive AS number, because the histogram is incremented before the
field comparison. -/
theorem claim1_counterexample :
    (verifyCorrection ["2a02:ecc0::/29", "US", "US-NJ", "Parsippany", ""]
        testParse testCityDB (some testIspDB) [] strictOpts).1.1 = "" ∧
    (verifyCorrection ["2a02:ecc0::/29", "US", "US-NJ", "Parsippany", ""]
        testParse testCityDB (some testIspDB) [] strictOpts).1.2.valid = true ∧
    asnCount (verifyCorrection ["2a02:ecc0::/29", "US", "US-NJ", "Parsippany", ""]
        testParse testCityDB (some testIspDB) [] strictOpts).2 42 = 1 := by
  decide

/-- C1 amended: the ASN histogram is incremented for every row that passes
all validity checks (including the ISP lookup) with a positive AS number,
whether or not the row differs from the reference record; and with no ISP
database configured no row ever touches the histogram. -/
theorem claim1_asn_histogram (f0 f1 f2 f3 f4 : String) (parseCIDR : CidrParse)
    (db : CityDB) (ispLookup : IspDB) (m : AsnCounts) (opts : Options) (addr : String)
    (rec : CityRecord) (ispRec : IspRecord)
    (hnet : trimSpace f0 ≠ "")
    (hparse : parseCIDR (normalizeNetwork (trimSpace f0)) = Except.ok addr)
    (hcity : db addr = Except.ok rec)
    (hreg : strContainsChar (trimSpace f2) '-' = true ∨ trimSpace f2 = "" ∨
      opts.laxMode = true)
    (hisp : ispLookup addr = Except.ok ispRec)
    (hn : 0 < ispRec.autonomousSystemNumber) :
    (verifyCorrection [f0, f1, f2, f3, f4] parseCIDR db (some ispLookup) m opts).2 =
      bumpAsn m ispRec.autonomousSystemNumber ∧
    ∀ row m2 opts2,
      (verifyCorrection row parseCIDR db none m2 opts2).2 = m2 := by
  refine ⟨?_, fun row m2 opts2 => verifyCorrection_asn_of_no_ispdb row parseCIDR db m2 opts2⟩
  rw [verifyCorrection_reach f0 f1 f2 f3 f4 parseCIDR db (some ispLookup) m opts addr rec
    hnet hparse hcity]
  have hmain : ∀ mss,
      (ispStage (normalizeNetwork (trimSpace f0)) addr rec.countryIsoCode mss
        rec.cityNameEn rec.postalCode (trimSpace f1) (trimSpace f2) (trimSpace f3)
        (trimSpace f4) (some ispLookup) m).2 =
        bumpAsn m ispRec.autonomousSystemNumber := by
    intro mss
    simp only [ispStage, hisp, if_pos hn]
  rcases hreg with hdash | hf2 | hlax
  · rw [if_pos hdash]
    exact hmain _
  · rw [if_neg (by rw [hf2]; decide), if_neg (by rw [hf2]; simp)]
    exact hmain _
  · by_cases hdash : strContainsChar (trimSpace f2) '-' = true
    · rw [if_pos hdash]
      exact hmain _
    · rw [if_neg hdash, if_neg (by rw [hlax]; simp)]
      exact hmain _

/-- Witness for the amended C1 at concrete inputs: a fully matching row with
an ISP record of AS number 42 bumps the histogram entry 42, and without an
ISP database the histogram is untouched. -/
theorem claim1_witness :
    (verifyCorrection ["2a02:ecc0::/29", "US", "US-NJ", "Parsippany", ""]
        testParse testCityDB (some testIspDB) [] strictOpts).2 = bumpAsn [] 42 ∧
    (verifyCorrection ["2a02:ecc0::/29", "US", "US-NJ", "Parsippany", "34021"]
        testParse testCityDB none [(7, 3)] strictOpts).2 = [(7, 3)] := by
  have h := claim1_asn_histogram "2a02:ecc0::/29" "US" "US-NJ" "Parsippany" "" testParse
    testCityDB testIspDB [] strictOpts "2a02:ecc0::" testRecord
    { autonomousSystemNumber := 42, autonomousSystemOrganization := "Example Org",
      isp := "Example ISP" }
    (by decide) (by rfl) (by rfl) (Or.inl (by decide)) (by rfl) (by decide)
  exact ⟨h.1, h.2 ["2a02:ecc0::/29", "US", "US-NJ", "Parsippany", "34021"] [(7, 3)]
    strictOpts⟩

/-- Counterexample to C2 as stated: for the row whose postal field is 34021
against the reference postal code 1060, the diff text does not contain the
quoted fragments of the claim; the submitted value is the one labelled
suggested and the reference value the one labelled current. -/
theorem claim2_counterexample :
    (processGeofeedRows testParse testCityDB none strictOpts
        [["2a02:ecc0::/29", "US", "US-NJ", "Parsippany", "34021"]]).1.c.differences = 1 ∧
    containsSubstr
      ((processGeofeedRows testParse testCityDB none strictOpts
        [["2a02:ecc0::/29", "US", "US-NJ", "Parsippany", "34021"]]).1.diffLines.getD 0 "")
      "current postal code: \x2734021\x27" = false ∧
    containsSubstr
      ((processGeofeedRows testParse testCityDB none strictOpts
        [["2a02:ecc0::/29", "US", "US-NJ", "Parsippany", "34021"]]).1.diffLines.getD 0 "")
      "suggested postal code: \x271060\x27" = false := by
  decide

/-- C2 amended: for the row whose postal field is 34021 while the reference
record holds 1060 and all other fields match, the file yields one difference
and the diff text contains current postal code 1060 first and suggested
postal code 34021 second. -/
theorem claim2_postal_diff_text :
    (processGeofeedRows testParse testCityDB none strictOpts
        [["2a02:ecc0::/29", "US", "US-NJ", "Parsippany", "34021"]]).1.c.differences = 1 ∧
    containsSubstr
      ((processGeofeedRows testParse testCityDB none strictOpts
        [["2a02:ecc0::/29", "US", "US-NJ", "Parsippany", "34021"]]).1.diffLines.getD 0 "")
      "current postal code: \x271060\x27" = true ∧
    containsSubstr
      ((processGeofeedRows testParse testCityDB none strictOpts
        [["2a02:ecc0::/29", "US", "US-NJ", "Parsippany", "34021"]]).1.diffLines.getD 0 "")
      ("current postal code: \x271060\x27" ++ "\t\t" ++
        "suggested postal code: \x2734021\x27") = true := by
  decide

/-- Witness for C10 at a concrete input: one short row adds one to total,
does not increment both counters, and the final counters satisfy the
invariant. -/
theorem claim10_witness :
    ((processRow testParse testCityDB none strictOpts initState ["a"]).c.total =
        initState.c.total + 1 ∧
      ¬((processRow testParse testCityDB none strictOpts initState ["a"]).c.invalid =
          initState.c.invalid + 1 ∧
        (processRow testParse testCityDB none strictOpts initState ["a"]).c.differences =
          initState.c.differences + 1)) ∧
    ((processRows testParse testCityDB none strictOpts initState [["a"]]).c.invalid +
        (processRows testParse testCityDB none strictOpts initState
          [["a"]]).c.differences ≤
        (processRows testParse testCityDB none strictOpts initState [["a"]]).c.total ∧
      (processRows testParse testCityDB none strictOpts initState [["a"]]).c.differences =
        (processRows testParse testCityDB none strictOpts initState
          [["a"]]).diffLines.length) :=
  ⟨(claim10_counters_never_both testParse testCityDB none strictOpts).1 initState ["a"],
   (claim10_counters_never_both testParse testCityDB none strictOpts).2 [["a"]]⟩

end Geofeed
